import Mathlib

/-!
Verification of the LES wire-protocol message layer of the trinity repository
(`trinity/protocol/les/proto.py` and `trinity/protocol/bcc/trackers.py`),
as a shallow embedding: the handshake parameter model and its conditional
payload projection, the protocol drivers for versions 1 and 2, the remote
proxy driver, and the beacon-blocks performance tracker.
-/

/-- Byte strings (hashes, keys, contract code identifiers) as lists of byte
values. -/
abbrev Bytes := List Nat

/-- A 32-byte hash value (`eth_typing.Hash32`). -/
abbrev Hash32 := Bytes

/-- A block number (`eth_typing.BlockNumber`). -/
abbrev BlockNumber := Nat

/-- A block header (`eth.rlp.headers.BlockHeader`): external to this layer and
never inspected by it, carried verbatim, so it is embedded as its opaque byte
content. -/
structure BlockHeader where
  raw : Bytes
deriving DecidableEq, Repr

/-- Modelled from the spec: the command types imported from the LES command
registry module (`.commands`, which is not under `src/`). Per the spec (§4.1)
each message kind is a distinct command with an encoder; here each command is
an identity tag, and encoding produces a `Frame` pairing the tag with the
driver's command-id offset, its compression flag, and the structured payload. -/
inductive LESCommand
  | Status
  | StatusV2
  | Announce
  | BlockHeaders
  | GetBlockHeaders
  | GetBlockBodies
  | BlockBodies
  | GetReceipts
  | Receipts
  | GetProofs
  | GetProofsV2
  | Proofs
  | ProofsV2
  | GetContractCodes
  | ContractCodes
deriving DecidableEq, Repr

/-- The query descriptor of a get-block-headers request
(`GetBlockHeadersQuery`): starting point by number or hash, maximum header
count, skip interval, and direction. -/
structure GetBlockHeadersQuery where
  block_number_or_hash : Sum BlockNumber Hash32
  max_headers : Nat
  skip : Nat
  reverse : Bool
deriving DecidableEq, Repr

/-- A single proof request (`ProofRequest`): block hash, account key, key, and
the from-level. -/
structure ProofRequest where
  block_hash : Bytes
  account_key : Bytes
  key : Bytes
  from_level : Nat
deriving DecidableEq, Repr

/-- A single contract-code request (`ContractCodeRequest`): block hash and
key. -/
structure ContractCodeRequest where
  block_hash : Bytes
  key : Bytes
deriving DecidableEq, Repr

/-- A structured payload value: the value side of one key-value entry of a
command payload dictionary. `null` is the Python `None` used as the value-less
presence marker in the handshake payload. -/
inductive PVal
  | nat (n : Nat)
  | bytes (b : Bytes)
  | bool (b : Bool)
  | null
  | bytesList (bs : List Bytes)
  | headerList (hs : List BlockHeader)
  | query (q : GetBlockHeadersQuery)
  | proofRequests (ps : List ProofRequest)
  | codeRequests (cs : List ContractCodeRequest)
  | mcrTable (t : List (Nat × Nat × Nat))
deriving DecidableEq, Repr

/-- A command payload: an insertion-ordered key-value dictionary with distinct
keys, embedded as an association list (Python dicts preserve insertion
order). -/
abbrev Payload := List (String × PVal)

/-- The LES handshake parameter record (`LESHandshakeParams`), mirroring the
source `NamedTuple` field for field: six required fields followed by the
optional server-capability fields. -/
structure LESHandshakeParams where
  version : Nat
  network_id : Nat
  head_td : Nat
  head_hash : Hash32
  head_number : BlockNumber
  genesis_hash : Hash32
  serve_headers : Bool
  serve_chain_since : Option BlockNumber
  serve_state_since : Option BlockNumber
  serve_recent_state : Option Bool
  serve_recent_chain : Option Bool
  tx_relay : Bool
  flow_control_bl : Option Nat
  flow_control_mcr : Option (List (Nat × Nat × Nat))
  flow_control_mrr : Option Nat
  announce_type : Option Nat
deriving DecidableEq, Repr

/-- The wire-payload projection of a handshake record
(`LESHandshakeParams.as_payload_dict`, which returns `_as_payload_dict`
collected by `to_dict` into an insertion-ordered dictionary): the six required
fields are yielded unconditionally, in order; then each conditional yield of
the generator body becomes one conditional segment, in the generator's order.
`serve_headers` and `tx_relay` are yielded as value-less markers when `True`
(`is True` checks); each `Optional` field is yielded with its value when not
`None` (`is not None` checks), written `Option.elim` — empty segment at
`none`, a one-entry segment carrying the value at `some`. -/
def LESHandshakeParams.as_payload_dict (p : LESHandshakeParams) : Payload :=
  [("protocolVersion", PVal.nat p.version),
   ("networkId", PVal.nat p.network_id),
   ("headTd", PVal.nat p.head_td),
   ("headHash", PVal.bytes p.head_hash),
   ("headNum", PVal.nat p.head_number),
   ("genesisHash", PVal.bytes p.genesis_hash)]
  ++ (if p.serve_headers = true then [("serveHeaders", PVal.null)] else [])
  ++ p.serve_chain_since.elim [] (fun n => [("serveChainSince", PVal.nat n)])
  ++ p.serve_state_since.elim [] (fun n => [("serveStateSince", PVal.nat n)])
  ++ p.serve_recent_chain.elim [] (fun b => [("serveRecentChain", PVal.bool b)])
  ++ p.serve_recent_state.elim [] (fun b => [("serveRecentState", PVal.bool b)])
  ++ (if p.tx_relay = true then [("txRelay", PVal.null)] else [])
  ++ p.flow_control_bl.elim [] (fun n => [("flowControl/BL", PVal.nat n)])
  ++ p.flow_control_mcr.elim [] (fun t => [("flowControl/MRC", PVal.mcrTable t)])
  ++ p.flow_control_mrr.elim [] (fun n => [("flowControl/MRR", PVal.nat n)])
  ++ p.announce_type.elim [] (fun n => [("announceType", PVal.nat n)])

/-- The ordered key list of a payload. -/
def payloadKeys (d : Payload) : List String := d.map Prod.fst

/-- The errors raised by this layer: `ValidationError` (version mismatch),
`ValueError` (bodies batch too large), `NotImplementedError` (proxy call kind
without a forwarding event). Message strings carry no information relevant to
any claim and are not modelled. -/
inductive PyError
  | validationError
  | valueError
  | notImplementedError
deriving DecidableEq, Repr

/-- A frame handed to the transport by `self.transport.send(header, body)`
where `(header, body) = cmd.encode(data)`: the encoder is external
(`p2p.protocol`), so the frame is embedded as the information it is built
from — the command, the driver's command-id offset, its compression flag, and
the structured payload. -/
structure Frame where
  cmd : LESCommand
  cmd_id_offset : Nat
  snappy : Bool
  data : Payload
deriving DecidableEq, Repr

/-- The per-instance state of a protocol driver inherited from the external
`p2p.protocol.Protocol` base: the command-id offset base and the
compression-capability flag. The transport handle is embedded as the list of
frames written (returned by each send-method). -/
structure ProtocolState where
  cmd_id_offset : Nat
  snappy_support : Bool
deriving DecidableEq, Repr

/-- The result of a request-sending method that succeeded: the frames written
to the transport, and the request id the method returns. -/
abbrev SendResult := List Frame × Nat

/-- Modelled from the spec: the Request-ID Allocator (`gen_request_id` from
`trinity._utils.les`, which is not under `src/`) produces a fresh correlation
id for an outbound request lacking an explicit id (spec §4.4). The allocator's
next value is threaded into each send-method as its `fresh` argument, and
`gen_request_id fresh` returns it. -/
def gen_request_id (fresh : Nat) : Nat := fresh

/-- Modelled from the spec: `constants.MAX_BODIES_FETCH`, the declared maximum
batch size of a bodies request (spec §7); the constants module is not under
`src/`, so the value here is a stand-in — every statement below is independent
of the value. -/
def MAX_BODIES_FETCH : Nat := 32

/-- The `version` class attribute of `LESProtocol`. -/
def LESProtocol.version : Nat := 1

/-- The `_commands` registry tuple of `LESProtocol`. -/
def LESProtocol.commands : List LESCommand :=
  [.Status, .Announce, .BlockHeaders, .GetBlockHeaders, .BlockBodies,
   .Receipts, .Proofs, .ContractCodes]

/-- The `cmd_length` command-space length of `LESProtocol`. -/
def LESProtocol.cmd_length : Nat := 15

/-- `LESProtocol.send_handshake`: validates that the supplied parameters'
version matches the driver's own version before encoding, then encodes the
payload dictionary with the `Status` command and writes it. -/
def LESProtocol.send_handshake (st : ProtocolState) (handshake_params : LESHandshakeParams) :
    Except PyError (List Frame) :=
  if handshake_params.version ≠ LESProtocol.version then
    .error .validationError
  else
    .ok [⟨.Status, st.cmd_id_offset, st.snappy_support, handshake_params.as_payload_dict⟩]

/-- `LESProtocol.send_get_block_bodies`: assigns a request id when none is
supplied, rejects a hash list longer than `MAX_BODIES_FETCH` with a
`ValueError` before any write, otherwise encodes and writes a
`GetBlockBodies` frame and returns the request id. -/
def LESProtocol.send_get_block_bodies (st : ProtocolState) (block_hashes : List Bytes)
    (request_id : Option Nat) (fresh : Nat) : Except PyError SendResult :=
  let request_id := match request_id with
    | none => gen_request_id fresh
    | some i => i
  if block_hashes.length > MAX_BODIES_FETCH then
    .error .valueError
  else
    let data : Payload :=
      [("request_id", PVal.nat request_id), ("block_hashes", PVal.bytesList block_hashes)]
    .ok ([⟨.GetBlockBodies, st.cmd_id_offset, st.snappy_support, data⟩], request_id)

/-- `LESProtocol.send_get_block_headers`: assigns a request id when none is
supplied, encodes and writes a `GetBlockHeaders` frame carrying the query
descriptor, and returns the request id. -/
def LESProtocol.send_get_block_headers (st : ProtocolState)
    (block_number_or_hash : Sum BlockNumber Hash32) (max_headers : Nat) (skip : Nat)
    (reverse : Bool) (request_id : Option Nat) (fresh : Nat) : Except PyError SendResult :=
  let request_id := match request_id with
    | none => gen_request_id fresh
    | some i => i
  let data : Payload :=
    [("request_id", PVal.nat request_id),
     ("query", PVal.query ⟨block_number_or_hash, max_headers, skip, reverse⟩)]
  .ok ([⟨.GetBlockHeaders, st.cmd_id_offset, st.snappy_support, data⟩], request_id)

/-- `LESProtocol.send_block_headers`: assigns a request id when none is
supplied, encodes and writes a `BlockHeaders` frame carrying the headers and
the buffer value, and returns the request id. -/
def LESProtocol.send_block_headers (st : ProtocolState) (headers : List BlockHeader)
    (buffer_value : Nat) (request_id : Option Nat) (fresh : Nat) : Except PyError SendResult :=
  let request_id := match request_id with
    | none => gen_request_id fresh
    | some i => i
  let data : Payload :=
    [("request_id", PVal.nat request_id),
     ("headers", PVal.headerList headers),
     ("buffer_value", PVal.nat buffer_value)]
  .ok ([⟨.BlockHeaders, st.cmd_id_offset, st.snappy_support, data⟩], request_id)

/-- `LESProtocol.send_get_receipts`: assigns a request id when none is
supplied, encodes and writes a `GetReceipts` frame carrying the singleton hash
list, and returns the request id. -/
def LESProtocol.send_get_receipts (st : ProtocolState) (block_hash : Bytes)
    (request_id : Option Nat) (fresh : Nat) : Except PyError SendResult :=
  let request_id := match request_id with
    | none => gen_request_id fresh
    | some i => i
  let data : Payload :=
    [("request_id", PVal.nat request_id), ("block_hashes", PVal.bytesList [block_hash])]
  .ok ([⟨.GetReceipts, st.cmd_id_offset, st.snappy_support, data⟩], request_id)

/-- `LESProtocol.send_get_proof`: assigns a request id when none is supplied,
encodes and writes a `GetProofs` frame carrying the singleton proof-request
list, and returns the request id. -/
def LESProtocol.send_get_proof (st : ProtocolState) (block_hash : Bytes)
    (account_key : Bytes) (key : Bytes) (from_level : Nat)
    (request_id : Option Nat) (fresh : Nat) : Except PyError SendResult :=
  let request_id := match request_id with
    | none => gen_request_id fresh
    | some i => i
  let data : Payload :=
    [("request_id", PVal.nat request_id),
     ("proof_requests", PVal.proofRequests [⟨block_hash, account_key, key, from_level⟩])]
  .ok ([⟨.GetProofs, st.cmd_id_offset, st.snappy_support, data⟩], request_id)

/-- `LESProtocol.send_get_contract_code`: assigns a request id when none is
supplied, encodes and writes a `GetContractCodes` frame carrying the singleton
code-request list, and returns the request id. -/
def LESProtocol.send_get_contract_code (st : ProtocolState) (block_hash : Bytes)
    (key : Bytes) (request_id : Option Nat) (fresh : Nat) : Except PyError SendResult :=
  let request_id := match request_id with
    | none => gen_request_id fresh
    | some i => i
  let data : Payload :=
    [("request_id", PVal.nat request_id),
     ("code_requests", PVal.codeRequests [⟨block_hash, key⟩])]
  .ok ([⟨.GetContractCodes, st.cmd_id_offset, st.snappy_support, data⟩], request_id)

/-- The `version` class attribute of `LESProtocolV2`. -/
def LESProtocolV2.version : Nat := 2

/-- The `_commands` registry tuple of `LESProtocolV2`. -/
def LESProtocolV2.commands : List LESCommand :=
  [.StatusV2, .Announce, .BlockHeaders, .GetBlockHeaders, .BlockBodies,
   .Receipts, .ProofsV2, .ContractCodes]

/-- The `cmd_length` command-space length of `LESProtocolV2`. -/
def LESProtocolV2.cmd_length : Nat := 21

/-- `LESProtocolV2.send_handshake`: the version-2 override — validates the
parameters' version against the driver's own version (now 2), then encodes
with the `StatusV2` command. -/
def LESProtocolV2.send_handshake (st : ProtocolState)
    (handshake_params : LESHandshakeParams) : Except PyError (List Frame) :=
  if handshake_params.version ≠ LESProtocolV2.version then
    .error .validationError
  else
    .ok [⟨.StatusV2, st.cmd_id_offset, st.snappy_support, handshake_params.as_payload_dict⟩]

/-- `LESProtocolV2.send_get_proof`: the version-2 override — identical body to
version 1 except that the frame is encoded with `GetProofsV2`. -/
def LESProtocolV2.send_get_proof (st : ProtocolState) (block_hash : Bytes)
    (account_key : Bytes) (key : Bytes) (from_level : Nat)
    (request_id : Option Nat) (fresh : Nat) : Except PyError SendResult :=
  let request_id := match request_id with
    | none => gen_request_id fresh
    | some i => i
  let data : Payload :=
    [("request_id", PVal.nat request_id),
     ("proof_requests", PVal.proofRequests [⟨block_hash, account_key, key, from_level⟩])]
  .ok ([⟨.GetProofsV2, st.cmd_id_offset, st.snappy_support, data⟩], request_id)

/-- `LESProtocolV2.send_get_block_bodies` is inherited unchanged from
`LESProtocol` (no override in the class body). -/
def LESProtocolV2.send_get_block_bodies := LESProtocol.send_get_block_bodies

/-- `LESProtocolV2.send_get_block_headers` is inherited unchanged from
`LESProtocol` (no override in the class body). -/
def LESProtocolV2.send_get_block_headers := LESProtocol.send_get_block_headers

/-- `LESProtocolV2.send_block_headers` is inherited unchanged from
`LESProtocol` (no override in the class body). -/
def LESProtocolV2.send_block_headers := LESProtocol.send_block_headers

/-- `LESProtocolV2.send_get_receipts` is inherited unchanged from
`LESProtocol` (no override in the class body). -/
def LESProtocolV2.send_get_receipts := LESProtocol.send_get_receipts

/-- `LESProtocolV2.send_get_contract_code` is inherited unchanged from
`LESProtocol` (no override in the class body). -/
def LESProtocolV2.send_get_contract_code := LESProtocol.send_get_contract_code

/-- A session descriptor (`p2p.abc.SessionAPI`): opaque to this layer, passed
through to event construction in the proxy path. -/
structure SessionAPI where
  id : Nat
deriving DecidableEq, Repr

/-- A broadcast routing descriptor (`lahja.BroadcastConfig`): opaque to this
layer, identifying the destination process of a published event. -/
structure BroadcastConfig where
  dest : Nat
deriving DecidableEq, Repr

/-- Modelled from the spec: `SendBlockHeadersEvent` (from `.events`, which is
not under `src/`) serializes the arguments of a `send_block_headers` call for
cross-process delegation (spec §4.6); its fields are exactly the values the
proxy passes at its construction site. The request-id field is an `Option`
because the proxy can pass the Python `None` through. -/
structure SendBlockHeadersEvent where
  session : SessionAPI
  headers : List BlockHeader
  buffer_value : Nat
  request_id : Option Nat
deriving DecidableEq, Repr

/-- One publication on the event bus: the event together with the broadcast
configuration it was published under (`broadcast_nowait(event, config)`). -/
abbrev Broadcast := SendBlockHeadersEvent × BroadcastConfig

/-- The constructor state of `ProxyLESProtocol`: the session descriptor and
the broadcast configuration. The event bus is embedded as the list of
publications each method performs (returned alongside its result). -/
structure ProxyLESProtocol where
  session : SessionAPI
  broadcast_config : BroadcastConfig
deriving DecidableEq, Repr

/-- The Python truthiness of the constant expression `not None`: `None` is
falsy, so `not None` evaluates to `True`. This is the condition of the
conditional expression in the proxy's `send_block_headers`
(`request_id if not None else gen_request_id()`). -/
def pyNotNone : Bool := true

/-- `ProxyLESProtocol.send_block_headers`: computes
`req_id = request_id if not None else gen_request_id()`, publishes one
`SendBlockHeadersEvent` carrying the session, the headers, the buffer value
and `req_id` under the configured broadcast destination, and returns
`req_id`. Because the condition `not None` is the constant `True`, `req_id`
is always the caller's `request_id`, even when that is `None`. -/
def ProxyLESProtocol.send_block_headers (p : ProxyLESProtocol)
    (headers : List BlockHeader) (buffer_value : Nat) (request_id : Option Nat)
    (fresh : Nat) : List Broadcast × Option Nat :=
  let req_id := if pyNotNone then request_id else some (gen_request_id fresh)
  ([(⟨p.session, headers, buffer_value, req_id⟩, p.broadcast_config)], req_id)

/-- `ProxyLESProtocol.send_handshake`: raises `NotImplementedError` on every
invocation, publishing nothing. -/
def ProxyLESProtocol.send_handshake (_p : ProxyLESProtocol)
    (_handshake_params : LESHandshakeParams) : Except PyError (List Broadcast) :=
  .error .notImplementedError

/-- `ProxyLESProtocol.send_get_block_bodies`: raises `NotImplementedError` on
every invocation, publishing nothing. -/
def ProxyLESProtocol.send_get_block_bodies (_p : ProxyLESProtocol)
    (_block_hashes : List Bytes) (_request_id : Option Nat) :
    Except PyError (List Broadcast × Nat) :=
  .error .notImplementedError

/-- `ProxyLESProtocol.send_get_block_headers`: raises `NotImplementedError` on
every invocation, publishing nothing. -/
def ProxyLESProtocol.send_get_block_headers (_p : ProxyLESProtocol)
    (_block_number_or_hash : Sum BlockNumber Hash32) (_max_headers : Nat)
    (_skip : Nat) (_reverse : Bool) (_request_id : Option Nat) :
    Except PyError (List Broadcast × Nat) :=
  .error .notImplementedError

/-- `ProxyLESProtocol.send_get_receipts`: raises `NotImplementedError` on
every invocation, publishing nothing. -/
def ProxyLESProtocol.send_get_receipts (_p : ProxyLESProtocol)
    (_block_hash : Bytes) (_request_id : Option Nat) :
    Except PyError (List Broadcast × Nat) :=
  .error .notImplementedError

/-- `ProxyLESProtocol.send_get_proof`: raises `NotImplementedError` on every
invocation, publishing nothing. -/
def ProxyLESProtocol.send_get_proof (_p : ProxyLESProtocol) (_block_hash : Bytes)
    (_account_key : Bytes) (_key : Bytes) (_from_level : Nat)
    (_request_id : Option Nat) : Except PyError (List Broadcast × Nat) :=
  .error .notImplementedError

/-- `ProxyLESProtocol.send_get_contract_code`: raises `NotImplementedError` on
every invocation, publishing nothing. -/
def ProxyLESProtocol.send_get_contract_code (_p : ProxyLESProtocol)
    (_block_hash : Bytes) (_key : Bytes) (_request_id : Option Nat) :
    Except PyError (List Broadcast × Nat) :=
  .error .notImplementedError

/-- A beacon block (`eth2.beacon.types.blocks.BaseBeaconBlock`): external to
this layer and never inspected, embedded as opaque content. -/
structure BaseBeaconBlock where
  raw : Bytes
deriving DecidableEq, Repr

/-- The command payload of a `GetBeaconBlocksRequest` as the tracker reads it:
the dictionary entry under the key the tracker subscripts
(`command_payload["max_blocks"]`), the declared upper bound on blocks. -/
structure GetBeaconBlocksCommandPayload where
  max_blocks : Nat
deriving DecidableEq, Repr

/-- A `GetBeaconBlocksRequest` as the tracker reads it: carries its
`command_payload`. -/
structure GetBeaconBlocksRequest where
  command_payload : GetBeaconBlocksCommandPayload
deriving DecidableEq, Repr

/-- `GetBeaconBlocksTracker._get_request_size`: the declared upper bound
`command_payload["max_blocks"]` of the request, not the delivered count. -/
def GetBeaconBlocksTracker.get_request_size (request : GetBeaconBlocksRequest) : Nat :=
  request.command_payload.max_blocks

/-- `GetBeaconBlocksTracker._get_result_size`: the number of delivered
blocks. -/
def GetBeaconBlocksTracker.get_result_size (result : List BaseBeaconBlock) : Nat :=
  result.length

/-- `GetBeaconBlocksTracker._get_result_item_count`: the number of delivered
blocks. -/
def GetBeaconBlocksTracker.get_result_item_count (result : List BaseBeaconBlock) : Nat :=
  result.length

/-- The shared shape of the two `send_handshake` bodies, parameterized by the
two points at which they differ under inheritance: the class's `version`
attribute and the handshake command type. Used to state that the version-2
handshake override changes only the command type (the version attribute being
the class's own negotiated version). -/
def send_handshake_body (version : Nat) (cmd : LESCommand) (st : ProtocolState)
    (handshake_params : LESHandshakeParams) : Except PyError (List Frame) :=
  if handshake_params.version ≠ version then
    .error .validationError
  else
    .ok [⟨cmd, st.cmd_id_offset, st.snappy_support, handshake_params.as_payload_dict⟩]

/-- Membership in a conditional singleton key segment. -/
theorem mem_if_singleton {c : Prop} [Decidable c] {a k : String} :
    a ∈ (if c then [k] else ([] : List String)) ↔ c ∧ a = k := by
  split <;> simp_all

/-- Keys of a conditional presence-marker segment. -/
theorem map_fst_if_marker (c : Prop) [Decidable c] (k : String) (v : PVal) :
    List.map Prod.fst (if c then [(k, v)] else []) = if c then [k] else [] := by
  split <;> rfl

/-- Keys of an optional-field segment. -/
theorem map_fst_elim_seg {α : Type} (o : Option α) (k : String) (f : α → PVal) :
    List.map Prod.fst (o.elim [] (fun a => [(k, f a)])) =
      (if o.isSome = true then [k] else []) := by
  cases o <;> rfl

/-- Membership in an optional-field segment. -/
theorem mem_elim_seg {α : Type} (x : String × PVal) (o : Option α) (k : String) (f : α → PVal) :
    x ∈ o.elim [] (fun a => [(k, f a)]) ↔ ∃ a, o = some a ∧ x = (k, f a) := by
  cases o <;> simp

/-- Closed form of the ordered key list of the handshake wire payload: the six
required keys in order, followed by one conditional singleton segment per
optional field, in the order of the generator body (note `serveRecentChain`
before `serveRecentState`). -/
theorem payloadKeys_as_payload_dict (p : LESHandshakeParams) :
    payloadKeys p.as_payload_dict =
      ["protocolVersion", "networkId", "headTd", "headHash", "headNum", "genesisHash"]
      ++ (if p.serve_headers = true then ["serveHeaders"] else [])
      ++ (if p.serve_chain_since.isSome = true then ["serveChainSince"] else [])
      ++ (if p.serve_state_since.isSome = true then ["serveStateSince"] else [])
      ++ (if p.serve_recent_chain.isSome = true then ["serveRecentChain"] else [])
      ++ (if p.serve_recent_state.isSome = true then ["serveRecentState"] else [])
      ++ (if p.tx_relay = true then ["txRelay"] else [])
      ++ (if p.flow_control_bl.isSome = true then ["flowControl/BL"] else [])
      ++ (if p.flow_control_mcr.isSome = true then ["flowControl/MRC"] else [])
      ++ (if p.flow_control_mrr.isSome = true then ["flowControl/MRR"] else [])
      ++ (if p.announce_type.isSome = true then ["announceType"] else []) := by
  simp only [payloadKeys, LESHandshakeParams.as_payload_dict, List.map_append,
    map_fst_if_marker, map_fst_elim_seg, List.map_cons, List.map_nil]

/-- C1 (code evaluated at the failing input): a proxy `send_block_headers`
call with no caller-supplied request id (and an allocator that would return
42) publishes exactly one event, but the event and the returned value carry
`none` — no fresh id is generated, because the conditional's test `not None`
is constantly true. -/
theorem C1_proxy_none_id_eval :
    ProxyLESProtocol.send_block_headers ⟨⟨3⟩, ⟨11⟩⟩ [⟨[1, 2]⟩] 9 none 42 =
      ([(⟨⟨3⟩, [⟨[1, 2]⟩], 9, none⟩, ⟨11⟩)], none) := rfl

/-- C2 (counterexample): a record whose `serve_recent_state` is set to `False`
(not absent) carries `serveRecentState` in its payload — with the value
`False` — rather than omitting it. -/
theorem C2_counterexample :
    ("serveRecentState", PVal.bool false) ∈
      (LESHandshakeParams.mk 1 1 0 [] 0 [] false none none (some false) none false
        none none none none).as_payload_dict := by
  decide

/-- C2 (amended): `serve_headers` and `tx_relay` set true appear as value-less
presence markers and are omitted when false; `serve_recent_state` and
`serve_recent_chain` are omitted when absent and otherwise appear with their
explicit boolean value, even when false. -/
theorem C2_boolean_field_encoding (p : LESHandshakeParams) :
    (p.serve_headers = true → ("serveHeaders", PVal.null) ∈ p.as_payload_dict) ∧
    (p.serve_headers = false → "serveHeaders" ∉ payloadKeys p.as_payload_dict) ∧
    (p.tx_relay = true → ("txRelay", PVal.null) ∈ p.as_payload_dict) ∧
    (p.tx_relay = false → "txRelay" ∉ payloadKeys p.as_payload_dict) ∧
    (∀ b, p.serve_recent_state = some b →
      ("serveRecentState", PVal.bool b) ∈ p.as_payload_dict) ∧
    (p.serve_recent_state = none → "serveRecentState" ∉ payloadKeys p.as_payload_dict) ∧
    (∀ b, p.serve_recent_chain = some b →
      ("serveRecentChain", PVal.bool b) ∈ p.as_payload_dict) ∧
    (p.serve_recent_chain = none → "serveRecentChain" ∉ payloadKeys p.as_payload_dict) := by
  refine ⟨fun h => ?_, fun h => ?_, fun h => ?_, fun h => ?_, fun b h => ?_, fun h => ?_,
    fun b h => ?_, fun h => ?_⟩
  · simp [LESHandshakeParams.as_payload_dict, h, mem_elim_seg]
  · rw [payloadKeys_as_payload_dict]
    simp [mem_if_singleton, h]
  · simp [LESHandshakeParams.as_payload_dict, h, mem_elim_seg]
  · rw [payloadKeys_as_payload_dict]
    simp [mem_if_singleton, h]
  · simp [LESHandshakeParams.as_payload_dict, h, mem_elim_seg]
  · rw [payloadKeys_as_payload_dict]
    simp [mem_if_singleton, h]
  · simp [LESHandshakeParams.as_payload_dict, h, mem_elim_seg]
  · rw [payloadKeys_as_payload_dict]
    simp [mem_if_singleton, h]

/-- C2 (witness for the amended theorem): a concrete record with
`serve_headers` true, `tx_relay` false, `serve_recent_state = some false` and
`serve_recent_chain` absent. -/
theorem C2_boolean_field_encoding_witness :
    ("serveHeaders", PVal.null) ∈
      (LESHandshakeParams.mk 1 1 0 [] 0 [] true none none (some false) none false
        none none none none).as_payload_dict ∧
    ("serveRecentState", PVal.bool false) ∈
      (LESHandshakeParams.mk 1 1 0 [] 0 [] true none none (some false) none false
        none none none none).as_payload_dict ∧
    "serveRecentChain" ∉ payloadKeys
      (LESHandshakeParams.mk 1 1 0 [] 0 [] true none none (some false) none false
        none none none none).as_payload_dict :=
  ⟨(C2_boolean_field_encoding _).1 rfl,
   (C2_boolean_field_encoding _).2.2.2.2.1 false rfl,
   (C2_boolean_field_encoding _).2.2.2.2.2.2.2 rfl⟩

/-- C3: the six required fields appear in every wire payload, and every
optional field whose value is the absent sentinel `none` is excluded. -/
theorem C3_required_present_absent_omitted (p : LESHandshakeParams) :
    ("protocolVersion", PVal.nat p.version) ∈ p.as_payload_dict ∧
    ("networkId", PVal.nat p.network_id) ∈ p.as_payload_dict ∧
    ("headTd", PVal.nat p.head_td) ∈ p.as_payload_dict ∧
    ("headHash", PVal.bytes p.head_hash) ∈ p.as_payload_dict ∧
    ("headNum", PVal.nat p.head_number) ∈ p.as_payload_dict ∧
    ("genesisHash", PVal.bytes p.genesis_hash) ∈ p.as_payload_dict ∧
    (p.serve_chain_since = none → "serveChainSince" ∉ payloadKeys p.as_payload_dict) ∧
    (p.serve_state_since = none → "serveStateSince" ∉ payloadKeys p.as_payload_dict) ∧
    (p.serve_recent_state = none → "serveRecentState" ∉ payloadKeys p.as_payload_dict) ∧
    (p.serve_recent_chain = none → "serveRecentChain" ∉ payloadKeys p.as_payload_dict) ∧
    (p.flow_control_bl = none → "flowControl/BL" ∉ payloadKeys p.as_payload_dict) ∧
    (p.flow_control_mcr = none → "flowControl/MRC" ∉ payloadKeys p.as_payload_dict) ∧
    (p.flow_control_mrr = none → "flowControl/MRR" ∉ payloadKeys p.as_payload_dict) ∧
    (p.announce_type = none → "announceType" ∉ payloadKeys p.as_payload_dict) := by
  refine ⟨?_, ?_, ?_, ?_, ?_, ?_, fun h => ?_, fun h => ?_, fun h => ?_, fun h => ?_,
    fun h => ?_, fun h => ?_, fun h => ?_, fun h => ?_⟩
  · simp [LESHandshakeParams.as_payload_dict]
  · simp [LESHandshakeParams.as_payload_dict]
  · simp [LESHandshakeParams.as_payload_dict]
  · simp [LESHandshakeParams.as_payload_dict]
  · simp [LESHandshakeParams.as_payload_dict]
  · simp [LESHandshakeParams.as_payload_dict]
  all_goals rw [payloadKeys_as_payload_dict]
  all_goals simp [mem_if_singleton, h]

/-- C3 (witness): a concrete record with every optional field absent. -/
theorem C3_witness :
    ("genesisHash", PVal.bytes [9]) ∈
      (LESHandshakeParams.mk 1 1 0 [7] 0 [9] false none none none none false
        none none none none).as_payload_dict ∧
    "serveChainSince" ∉ payloadKeys
      (LESHandshakeParams.mk 1 1 0 [7] 0 [9] false none none none none false
        none none none none).as_payload_dict ∧
    "announceType" ∉ payloadKeys
      (LESHandshakeParams.mk 1 1 0 [7] 0 [9] false none none none none false
        none none none none).as_payload_dict :=
  ⟨(C3_required_present_absent_omitted _).2.2.2.2.2.1,
   (C3_required_present_absent_omitted _).2.2.2.2.2.2.1 rfl,
   (C3_required_present_absent_omitted _).2.2.2.2.2.2.2.2.2.2.2.2.2 rfl⟩

/-- C4: a bodies request with more hashes than `MAX_BODIES_FETCH` raises the
local validation error (`ValueError`) with no transport write; otherwise the
request is encoded and written. -/
theorem C4_bodies_batch_limit (st : ProtocolState) (block_hashes : List Bytes)
    (request_id : Option Nat) (fresh : Nat) :
    (block_hashes.length > MAX_BODIES_FETCH →
      LESProtocol.send_get_block_bodies st block_hashes request_id fresh =
        .error .valueError) ∧
    (¬ block_hashes.length > MAX_BODIES_FETCH →
      LESProtocol.send_get_block_bodies st block_hashes request_id fresh =
        .ok ([⟨.GetBlockBodies, st.cmd_id_offset, st.snappy_support,
              [("request_id", PVal.nat (request_id.getD fresh)),
               ("block_hashes", PVal.bytesList block_hashes)]⟩],
             request_id.getD fresh)) := by
  constructor <;> intro h <;> cases request_id <;>
    simp [LESProtocol.send_get_block_bodies, gen_request_id, h]

/-- C4 (witness): 33 hashes exceed the maximum of 32 and raise; one hash is
encoded and written with the caller's id. -/
theorem C4_witness :
    LESProtocol.send_get_block_bodies ⟨10, false⟩ (List.replicate 33 []) (some 7) 1 =
      .error .valueError ∧
    LESProtocol.send_get_block_bodies ⟨10, false⟩ [[5]] (some 7) 1 =
      .ok ([⟨.GetBlockBodies, 10, false,
            [("request_id", PVal.nat 7), ("block_hashes", PVal.bytesList [[5]])]⟩], 7) :=
  ⟨(C4_bodies_batch_limit _ _ _ _).1 (by decide),
   (C4_bodies_batch_limit _ _ _ _).2 (by decide)⟩

/-- C5: `send_handshake` raises the version-mismatch validation error when the
parameters' version differs from the driver's negotiated version, before any
write; on a match it encodes with that driver's handshake command — `Status`
for version 1, `StatusV2` for version 2. -/
theorem C5_handshake_version_check (st : ProtocolState) (p : LESHandshakeParams) :
    (p.version ≠ LESProtocol.version →
      LESProtocol.send_handshake st p = .error .validationError) ∧
    (p.version = LESProtocol.version →
      LESProtocol.send_handshake st p =
        .ok [⟨.Status, st.cmd_id_offset, st.snappy_support, p.as_payload_dict⟩]) ∧
    (p.version ≠ LESProtocolV2.version →
      LESProtocolV2.send_handshake st p = .error .validationError) ∧
    (p.version = LESProtocolV2.version →
      LESProtocolV2.send_handshake st p =
        .ok [⟨.StatusV2, st.cmd_id_offset, st.snappy_support, p.as_payload_dict⟩]) := by
  refine ⟨fun h => ?_, fun h => ?_, fun h => ?_, fun h => ?_⟩ <;>
    simp [LESProtocol.send_handshake, LESProtocolV2.send_handshake, h]

/-- C5 (witness): version-2 parameters on the version-1 driver raise; version-1
parameters on the version-1 driver succeed with the `Status` command. -/
theorem C5_witness :
    LESProtocol.send_handshake ⟨2, true⟩
      (LESHandshakeParams.mk 2 1 0 [] 0 [] false none none none none false
        none none none none) = .error .validationError ∧
    LESProtocol.send_handshake ⟨2, true⟩
      (LESHandshakeParams.mk 1 1 0 [] 0 [] false none none none none false
        none none none none) =
      .ok [⟨.Status, 2, true,
            (LESHandshakeParams.mk 1 1 0 [] 0 [] false none none none none false
              none none none none).as_payload_dict⟩] :=
  ⟨(C5_handshake_version_check _ _).1 (by decide),
   (C5_handshake_version_check _ _).2.1 rfl⟩

/-- C6: the version-2 driver differs from version 1 in exactly the three
stated places — the handshake command type (both handshake bodies are the
shared body at the class's own version, with `Status` and `StatusV2`
respectively), the proof-request command type (version 2's `send_get_proof`
is version 1's with every written frame's command replaced by `GetProofsV2`),
and the command registry with its command-space length — while every other
send-method is inherited unchanged. -/
theorem C6_version_specialization :
    LESProtocol.send_handshake = send_handshake_body LESProtocol.version .Status ∧
    LESProtocolV2.send_handshake = send_handshake_body LESProtocolV2.version .StatusV2 ∧
    (∀ st block_hash account_key key from_level request_id fresh,
      LESProtocolV2.send_get_proof st block_hash account_key key from_level
          request_id fresh =
        Except.map
          (fun r => (r.1.map (fun f => { f with cmd := LESCommand.GetProofsV2 }), r.2))
          (LESProtocol.send_get_proof st block_hash account_key key from_level
            request_id fresh)) ∧
    LESProtocolV2.commands ≠ LESProtocol.commands ∧
    LESProtocolV2.cmd_length = 21 ∧ LESProtocol.cmd_length = 15 ∧
    LESProtocolV2.send_get_block_bodies = LESProtocol.send_get_block_bodies ∧
    LESProtocolV2.send_get_block_headers = LESProtocol.send_get_block_headers ∧
    LESProtocolV2.send_block_headers = LESProtocol.send_block_headers ∧
    LESProtocolV2.send_get_receipts = LESProtocol.send_get_receipts ∧
    LESProtocolV2.send_get_contract_code = LESProtocol.send_get_contract_code := by
  refine ⟨rfl, rfl, ?_, by decide, rfl, rfl, rfl, rfl, rfl, rfl, rfl⟩
  intro st bh ak k fl rid fresh
  cases rid <;> rfl

/-- C7: every Remote Proxy Driver call kind without a defined forwarding event
raises `NotImplementedError` on every invocation, publishing nothing. -/
theorem C7_proxy_unsupported_kinds :
    (∀ p hp, ProxyLESProtocol.send_handshake p hp = .error .notImplementedError) ∧
    (∀ p bh rid, ProxyLESProtocol.send_get_block_bodies p bh rid =
      .error .notImplementedError) ∧
    (∀ p b mh sk rv rid, ProxyLESProtocol.send_get_block_headers p b mh sk rv rid =
      .error .notImplementedError) ∧
    (∀ p bh rid, ProxyLESProtocol.send_get_receipts p bh rid =
      .error .notImplementedError) ∧
    (∀ p bh ak k fl rid, ProxyLESProtocol.send_get_proof p bh ak k fl rid =
      .error .notImplementedError) ∧
    (∀ p bh k rid, ProxyLESProtocol.send_get_contract_code p bh k rid =
      .error .notImplementedError) :=
  ⟨fun _ _ => rfl, fun _ _ _ => rfl, fun _ _ _ _ _ _ => rfl, fun _ _ _ => rfl,
   fun _ _ _ _ _ _ => rfl, fun _ _ _ _ => rfl⟩

/-- C8: the beacon-blocks tracker reports the declared upper bound as the
request size, and the delivered block count as both result size and result
item count. -/
theorem C8_beacon_tracker_sizes (N : Nat) (blocks : List BaseBeaconBlock) :
    GetBeaconBlocksTracker.get_request_size ⟨⟨N⟩⟩ = N ∧
    GetBeaconBlocksTracker.get_result_size blocks = blocks.length ∧
    GetBeaconBlocksTracker.get_result_item_count blocks = blocks.length :=
  ⟨rfl, rfl, rfl⟩

/-- C9 (counterexample): with every optional field present, the payload keys
are not in the order the claim states — `serveRecentChain` precedes
`serveRecentState` in the code's generator. -/
theorem C9_counterexample :
    payloadKeys (LESHandshakeParams.mk 1 1 0 [] 0 [] true (some 1) (some 2) (some true)
        (some true) true (some 3) (some [(1, 2, 3)]) (some 4) (some 5)).as_payload_dict ≠
      ["protocolVersion", "networkId", "headTd", "headHash", "headNum", "genesisHash",
       "serveHeaders", "serveChainSince", "serveStateSince", "serveRecentState",
       "serveRecentChain", "txRelay", "flowControl/BL", "flowControl/MRC",
       "flowControl/MRR", "announceType"] := by
  decide

/-- C9 (amended): the payload lists the six required fields first in the
stated order, followed by the present optional fields in the fixed order of
the generator body: serve-headers, serve-chain-since, serve-state-since,
serve-recent-chain, serve-recent-state, transaction-relay, flow-control
buffer limit, maximum-recharge-rate table, maximum-recharge-rate scalar,
announce-type. -/
theorem C9_payload_key_order (p : LESHandshakeParams) :
    payloadKeys p.as_payload_dict =
      ["protocolVersion", "networkId", "headTd", "headHash", "headNum", "genesisHash"]
      ++ (if p.serve_headers = true then ["serveHeaders"] else [])
      ++ (if p.serve_chain_since.isSome = true then ["serveChainSince"] else [])
      ++ (if p.serve_state_since.isSome = true then ["serveStateSince"] else [])
      ++ (if p.serve_recent_chain.isSome = true then ["serveRecentChain"] else [])
      ++ (if p.serve_recent_state.isSome = true then ["serveRecentState"] else [])
      ++ (if p.tx_relay = true then ["txRelay"] else [])
      ++ (if p.flow_control_bl.isSome = true then ["flowControl/BL"] else [])
      ++ (if p.flow_control_mcr.isSome = true then ["flowControl/MRC"] else [])
      ++ (if p.flow_control_mrr.isSome = true then ["flowControl/MRR"] else [])
      ++ (if p.announce_type.isSome = true then ["announceType"] else []) :=
  payloadKeys_as_payload_dict p

/-- C10: every request-sending method of both driver versions that completes
without error returns exactly the integer stored under the payload's
`request_id` key — the caller-supplied id verbatim when one is given, the
allocator's fresh id only when none is. -/
theorem C10_returned_id_matches_payload :
    (∀ st bh rid fresh frames ret,
      LESProtocol.send_get_block_bodies st bh rid fresh = .ok (frames, ret) →
        frames.map (fun f => f.data.lookup "request_id") = [some (PVal.nat ret)] ∧
        ret = rid.getD fresh) ∧
    (∀ st b mh sk rv rid fresh frames ret,
      LESProtocol.send_get_block_headers st b mh sk rv rid fresh = .ok (frames, ret) →
        frames.map (fun f => f.data.lookup "request_id") = [some (PVal.nat ret)] ∧
        ret = rid.getD fresh) ∧
    (∀ st hs bv rid fresh frames ret,
      LESProtocol.send_block_headers st hs bv rid fresh = .ok (frames, ret) →
        frames.map (fun f => f.data.lookup "request_id") = [some (PVal.nat ret)] ∧
        ret = rid.getD fresh) ∧
    (∀ st bh rid fresh frames ret,
      LESProtocol.send_get_receipts st bh rid fresh = .ok (frames, ret) →
        frames.map (fun f => f.data.lookup "request_id") = [some (PVal.nat ret)] ∧
        ret = rid.getD fresh) ∧
    (∀ st bh ak k fl rid fresh frames ret,
      LESProtocol.send_get_proof st bh ak k fl rid fresh = .ok (frames, ret) →
        frames.map (fun f => f.data.lookup "request_id") = [some (PVal.nat ret)] ∧
        ret = rid.getD fresh) ∧
    (∀ st bh k rid fresh frames ret,
      LESProtocol.send_get_contract_code st bh k rid fresh = .ok (frames, ret) →
        frames.map (fun f => f.data.lookup "request_id") = [some (PVal.nat ret)] ∧
        ret = rid.getD fresh) ∧
    (∀ st bh ak k fl rid fresh frames ret,
      LESProtocolV2.send_get_proof st bh ak k fl rid fresh = .ok (frames, ret) →
        frames.map (fun f => f.data.lookup "request_id") = [some (PVal.nat ret)] ∧
        ret = rid.getD fresh) := by
  refine ⟨?_, ?_, ?_, ?_, ?_, ?_, ?_⟩
  · intro st bh rid fresh frames ret h
    cases rid <;>
      · simp only [LESProtocol.send_get_block_bodies, gen_request_id] at h
        split at h
        · simp at h
        · cases h
          exact ⟨rfl, rfl⟩
  · intro st b mh sk rv rid fresh frames ret h
    cases rid <;> (cases h; exact ⟨rfl, rfl⟩)
  · intro st hs bv rid fresh frames ret h
    cases rid <;> (cases h; exact ⟨rfl, rfl⟩)
  · intro st bh rid fresh frames ret h
    cases rid <;> (cases h; exact ⟨rfl, rfl⟩)
  · intro st bh ak k fl rid fresh frames ret h
    cases rid <;> (cases h; exact ⟨rfl, rfl⟩)
  · intro st bh k rid fresh frames ret h
    cases rid <;> (cases h; exact ⟨rfl, rfl⟩)
  · intro st bh ak k fl rid fresh frames ret h
    cases rid <;> (cases h; exact ⟨rfl, rfl⟩)

/-- C10 (witness): a get-block-headers call with no caller id and allocator
value 42 returns 42, which is the id embedded in the written frame; a
get-receipts call with caller id 7 returns 7. -/
theorem C10_witness :
    ([(⟨.GetBlockHeaders, 0, false,
        [("request_id", PVal.nat 42),
         ("query", PVal.query ⟨Sum.inl 5, 10, 0, false⟩)]⟩ : Frame)].map
      (fun f => f.data.lookup "request_id") = [some (PVal.nat 42)] ∧
      (42 : Nat) = (none : Option Nat).getD 42) ∧
    ([(⟨.GetReceipts, 0, false,
        [("request_id", PVal.nat 7),
         ("block_hashes", PVal.bytesList [[1]])]⟩ : Frame)].map
      (fun f => f.data.lookup "request_id") = [some (PVal.nat 7)] ∧
      (7 : Nat) = (some 7 : Option Nat).getD 42) :=
  ⟨C10_returned_id_matches_payload.2.1 ⟨0, false⟩ (Sum.inl 5) 10 0 false none 42 _ _ rfl,
   C10_returned_id_matches_payload.2.2.2.1 ⟨0, false⟩ [1] (some 7) 42 _ _ rfl⟩
